import Mathlib

/-
Verification development for the Megatron script-execution engine
(src/startup/megatron/interpreter.py and src/startup/megatron/support.py).

The Python code is shallowly embedded: pure computations become Lean
functions over ℤ/ℚ/String, the condition watcher becomes an explicit
state machine driven by signal-update and timeout events, and bluesky
plans become lists of messages (the values the generators yield).
-/

namespace Megatron

/-! ## Condition watcher (`support.py`, `_ConditionStatus` and `wait_for_condition`) -/

/-- The comparison operators accepted by the callback in
`_ConditionStatus.__init__` (support.py lines 58-77). -/
def validOps : List String := ["<", "<=", ">", ">=", "=", "==", "!="]

/-- Tolerance normalization from `_ConditionStatus.__init__`
(support.py lines 35-37): `tolerance = tolerance or 0` followed by
clamping negative values to 0.  `none` models Python `None`. -/
def clampTolerance (tolerance : Option ℚ) : ℚ :=
  let t := tolerance.getD 0
  if t < 0 then 0 else t

/-- The predicate evaluated by the callback `cb` on every signal update
(support.py lines 57-77).  The chain of `elif` branches is translated
branch by branch; the final `else` is the `raise RuntimeError` for an
invalid operator (the `!r` repr formatting of the message is elided). -/
def predEval (operator : String) (target tolerance value : ℚ) : Except String Bool :=
  if operator = "<" then .ok (decide (value < target))
  else if operator = "<=" then .ok (decide (value ≤ target))
  else if operator = ">" then .ok (decide (value > target))
  else if operator = ">=" then .ok (decide (value ≥ target))
  else if operator = "=" ∨ operator = "==" then
    .ok (decide (target - tolerance ≤ value ∧ value ≤ target + tolerance))
  else if operator = "!=" then
    .ok (decide (value ≤ target - tolerance ∨ value ≥ target + tolerance))
  else .error ("Invalid operator: " ++ operator)

/-- Subscription/resolution state of one `_ConditionStatus` object:
`cbSubscribed` records whether `cb` is subscribed to the signal
(`signal.subscribe(cb, ...)` at support.py line 87, cleared only by
`signal.clear_sub(cb)` at line 80); `finished` records whether
`set_finished` (line 81) has run. -/
structure WaitState where
  cbSubscribed : Bool
  finished : Bool
deriving DecidableEq, Repr

/-- One condition-wait request: the data captured by the `cb` closure
plus the mutable subscription state. -/
structure Watcher where
  operator : String
  target : ℚ
  tolerance : ℚ
  state : WaitState
deriving DecidableEq, Repr

/-- Model of `_ConditionStatus.__init__` (support.py lines 30-92): clamps the
tolerance, stores the fields and subscribes `cb` (and `_notify_watchers`)
to the signal.  The `operator` argument is referenced only inside the
`cb` closure, so `__init__` performs no operator validation of its own
and never raises the invalid-operator error; the subscription is made
unconditionally.  The `Except` return type records that property. -/
def conditionStatusInit (operator : String) (target : ℚ) (tolerance : Option ℚ) :
    Except String Watcher :=
  .ok { operator := operator, target := target, tolerance := clampTolerance tolerance,
        state := { cbSubscribed := true, finished := false } }

/-- One invocation of the callback `cb` with a new signal value
(support.py lines 53-81).  While subscribed, the predicate is evaluated;
an invalid operator raises (the error propagates), a satisfying value
runs `signal.clear_sub(cb)` then `self.set_finished()`, and a
non-satisfying value leaves everything unchanged.  Once unsubscribed the
callback is no longer invoked, so the state is returned unchanged. -/
def cbUpdate (w : Watcher) (value : ℚ) : Except String Watcher :=
  if w.state.cbSubscribed then
    match predEval w.operator w.target w.tolerance value with
    | .error e => .error e
    | .ok true => .ok { w with state := { cbSubscribed := false, finished := true } }
    | .ok false => .ok w
  else .ok w

/-- Expiry of the timeout of `Msg("wait", None, group=group, timeout=timeout)`
(support.py line 236).  The timeout is handled by the `wait` command
of the run engine, which raises `WaitTimeoutError` to the plan; neither
`wait_for_condition` nor `_ConditionStatus` touches the `cb` subscription
on this path, so the watcher is unchanged. -/
def waitTimeout (w : Watcher) : Watcher := w

/-- External events driving one condition-wait request: a signal value
update, or expiry of the wait timeout. -/
inductive WEvent
  | update (v : ℚ)
  | timeout
deriving DecidableEq, Repr

/-- Dispatch of one event to the watcher. -/
def stepEv (w : Watcher) : WEvent → Except String Watcher
  | .update v => cbUpdate w v
  | .timeout => .ok (waitTimeout w)

/-- Processing of a sequence of events by one condition-wait request. -/
def runEvents (w : Watcher) : List WEvent → Except String Watcher
  | [] => .ok w
  | e :: es =>
    match stepEv w e with
    | .error err => .error err
    | .ok w2 => runEvents w2 es

deriving instance DecidableEq for Except

/-! ## Line parser (`interpreter.py`, `Interpreter._process_line`) -/

/-- Model of `re.sub(r"#.*$", "", code_line)` on a single script line
(interpreter.py line 72): everything from the first `#` to the end of
the line is removed, with no regard for quoting. -/
def stripComment (line : String) : String :=
  String.mk (line.toList.takeWhile (fun c => c ≠ '#'))

/-- Python `str.strip(" ")` on a list of characters: removes leading and
trailing space characters only. -/
def stripSpacesL (cs : List Char) : List Char :=
  ((cs.dropWhile (fun c => c = ' ')).reverse.dropWhile (fun c => c = ' ')).reverse

/-- Python `str.strip(" ")` (interpreter.py lines 73 and 79). -/
def pyStripSpaces (s : String) : String :=
  String.mk (stripSpacesL s.toList)

/-- Whitespace stripped by Python `int()` / `float()` around a literal. -/
def trimWS (cs : List Char) : List Char :=
  ((cs.dropWhile Char.isWhitespace).reverse.dropWhile Char.isWhitespace).reverse

/-- Value of a non-empty string of decimal digits. -/
def digitsToNat (ds : List Char) : ℕ :=
  ds.foldl (fun acc c => acc * 10 + (c.toNat - 48)) 0

/-- Python `int(s)` on a string, returning `none` where `int()` raises
`ValueError`: after stripping whitespace the literal must be an optional
sign followed by one or more decimal digits (digit-group underscores and
non-ASCII digits, which CPython also accepts, are not modelled; no
script token uses them). -/
def pyIntOpt (s : String) : Option ℤ :=
  match trimWS s.toList with
  | '-' :: ds => if ds ≠ [] ∧ ds.all Char.isDigit then some (-(digitsToNat ds : ℤ)) else none
  | '+' :: ds => if ds ≠ [] ∧ ds.all Char.isDigit then some (digitsToNat ds : ℤ) else none
  | ds => if ds ≠ [] ∧ ds.all Char.isDigit then some (digitsToNat ds : ℤ) else none

/-- Splits a character list into (leading digits, rest). -/
def spanDigits (cs : List Char) : List Char × List Char :=
  (cs.takeWhile Char.isDigit, cs.dropWhile Char.isDigit)

/-- Core of Python `float(s)` after whitespace stripping: optional sign,
decimal digits with an optional fractional part (at least one digit in
the mantissa), and an optional exponent.  `inf`/`nan` literals are not
modelled (no script uses them); the result is the exact rational value
of the decimal literal. -/
def pyFloatCore (cs : List Char) : Option ℚ :=
  let sr : ℚ × List Char :=
    match cs with
    | '-' :: r => (-1, r)
    | '+' :: r => (1, r)
    | r => (1, r)
  let ipRest := spanDigits sr.2
  let fpRest : List Char × List Char :=
    match ipRest.2 with
    | '.' :: r => spanDigits r
    | r => ([], r)
  if ipRest.1 = [] ∧ fpRest.1 = [] then none
  else
    let mant : ℚ := sr.1 * ((digitsToNat ipRest.1 : ℚ)
      + (digitsToNat fpRest.1 : ℚ) / ((10 : ℚ) ^ fpRest.1.length))
    match fpRest.2 with
    | [] => some mant
    | e :: r =>
      if e = 'e' ∨ e = 'E' then
        let esr : ℤ × List Char :=
          match r with
          | '-' :: rr => (-1, rr)
          | '+' :: rr => (1, rr)
          | rr => (1, rr)
        let edRest := spanDigits esr.2
        if edRest.1 ≠ [] ∧ edRest.2 = [] then
          some (mant * (10 : ℚ) ^ (esr.1 * (digitsToNat edRest.1 : ℤ)))
        else none
      else none

/-- Python `float(s)` on a string, `none` where `float()` raises. -/
def pyFloatOpt (s : String) : Option ℚ :=
  pyFloatCore (trimWS s.toList)

/-- Quoting state of the `shlex` tokenizer. -/
inductive QuoteMode
  | noneQ
  | singleQ
  | doubleQ
deriving DecidableEq, Repr

/-- The single-quote character (written by code to keep quoting rules
of this file simple). -/
def squote : Char := Char.ofNat 39

/-- Character-level model of `shlex.split` in its default POSIX mode
with whitespace splitting (interpreter.py line 75): whitespace separates
tokens; single and double quotes group characters (the quote characters
themselves are dropped); inside double quotes a backslash escapes only
`"` and `\`; outside quotes a backslash escapes the next character.  An
unterminated quote raises `ValueError("No closing quotation")` and a
trailing bare backslash raises `ValueError("No escaped character")`.
`cur = none` means no token has been started. -/
def shlexAux (q : QuoteMode) (cur : Option (List Char)) (acc : List String) :
    List Char → Except String (List String)
  | [] =>
    match q, cur with
    | .noneQ, none => .ok acc
    | .noneQ, some t => .ok (acc ++ [String.mk t])
    | _, _ => .error "No closing quotation"
  | c :: rest =>
    match q with
    | .singleQ =>
      if c = squote then shlexAux .noneQ (some (cur.getD [])) acc rest
      else shlexAux .singleQ (some (cur.getD [] ++ [c])) acc rest
    | .doubleQ =>
      if c = '"' then shlexAux .noneQ (some (cur.getD [])) acc rest
      else if c = '\\' then
        match rest with
        | [] => .error "No closing quotation"
        | d :: rest2 =>
          if d = '"' ∨ d = '\\' then shlexAux .doubleQ (some (cur.getD [] ++ [d])) acc rest2
          else shlexAux .doubleQ (some (cur.getD [] ++ ['\\', d])) acc rest2
      else shlexAux .doubleQ (some (cur.getD [] ++ [c])) acc rest
    | .noneQ =>
      if c = ' ' ∨ c = '\t' ∨ c = '\r' ∨ c = '\n' then
        match cur with
        | none => shlexAux .noneQ none acc rest
        | some t => shlexAux .noneQ none (acc ++ [String.mk t]) rest
      else if c = squote then shlexAux .singleQ (some (cur.getD [])) acc rest
      else if c = '"' then shlexAux .doubleQ (some (cur.getD [])) acc rest
      else if c = '\\' then
        match rest with
        | [] => .error "No escaped character"
        | d :: rest2 => shlexAux .noneQ (some (cur.getD [] ++ [d])) acc rest2
      else shlexAux .noneQ (some (cur.getD [] ++ [c])) acc rest

/-- Model of `shlex.split(s)`. -/
def shlexSplit (s : String) : Except String (List String) :=
  shlexAux .noneQ none [] s.toList

/-- Python `s.split(",")`: the comma-separated segments of `cs`
(an input with no comma yields one segment; empty segments are kept). -/
def splitCommaAux (cs : List Char) (cur : List Char) (acc : List (List Char)) :
    List (List Char) :=
  match cs with
  | [] => acc ++ [cur]
  | ',' :: rest => splitCommaAux rest [] (acc ++ [cur])
  | c :: rest => splitCommaAux rest (cur ++ [c]) acc

/-- The token list of one script line (interpreter.py lines 71-79):
strip the comment, strip surrounding spaces, split on commas, tokenize
each segment with `shlex.split`, flatten, and strip spaces from each
token.  An exception from `shlex.split` propagates. -/
def tokenizeTokens (line : String) : Except String (List String) :=
  let codeLine := pyStripSpaces (stripComment line)
  let segs := (splitCommaAux codeLine.toList [] []).map String.mk
  match segs.mapM shlexSplit with
  | .error e => .error e
  | .ok ls => .ok ((ls.flatten).map pyStripSpaces)

/-- Model of `re.search(r"^t\d+$", s)` (interpreter.py line 87). -/
def tNumMatch (s : String) : Bool :=
  match s.toList with
  | 't' :: ds => !ds.isEmpty && ds.all Char.isDigit
  | _ => false

/-- Model of `re.search(r"^\d+$", s)` (interpreter.py line 91). -/
def uintMatch (s : String) : Bool :=
  let cs := s.toList
  !cs.isEmpty && cs.all Char.isDigit

/-- Model of `re.search(r"^-*\d+$", s)` (interpreter.py lines 95 and 99): any
number of leading minus signs — including two or more — followed by
digits. -/
def sintMatch (s : String) : Bool :=
  let ds := s.toList.dropWhile (fun c => c = '-')
  !ds.isEmpty && ds.all Char.isDigit

/-- Guard of the `t<N>` branch: `re.search(r"^t\d+$", ss[0]) and len(ss) == 1`. -/
def guardPause (s0 : String) (args : List String) : Bool :=
  tNumMatch s0 && args.isEmpty

/-- Guard of the `sp` branch. -/
def guardSp (s0 : String) (args : List String) : Bool :=
  s0 == "sp" && (match args with | [a] => uintMatch a | _ => false)

/-- Guard of the `pa` branch. -/
def guardPa (s0 : String) (args : List String) : Bool :=
  s0 == "pa" && (match args with | [a] => sintMatch a | _ => false)

/-- Guard of the `pr` branch. -/
def guardPr (s0 : String) (args : List String) : Bool :=
  s0 == "pr" && (match args with | [a] => sintMatch a | _ => false)

/-- Guard of the `bg` branch. -/
def guardBg (s0 : String) (args : List String) : Bool :=
  s0 == "bg" && args.isEmpty

/-- Guard of the `st` branch. -/
def guardSt (s0 : String) (args : List String) : Bool :=
  s0 == "st" && args.isEmpty

/-- Guard of the `hm` branch. -/
def guardHm (s0 : String) (args : List String) : Bool :=
  s0 == "hm" && args.isEmpty

/-- Guard of the `set` branch: `len(ss) == 3`. -/
def guardSet (s0 : String) (args : List String) : Bool :=
  s0 == "set" && args.length == 2

/-- Guard of the `waitai` branch: `len(ss) >= 4 and len(ss) <= 6`. -/
def guardWaitai (s0 : String) (args : List String) : Bool :=
  s0 == "waitai" && decide (3 ≤ args.length) && decide (args.length ≤ 5)

/-- Guard of the `waitdi` branch: `len(ss) >= 3 and len(ss) <= 4`. -/
def guardWaitdi (s0 : String) (args : List String) : Bool :=
  s0 == "waitdi" && decide (2 ≤ args.length) && decide (args.length ≤ 3)

/-- Guard of the run-mode `log` branch: `len(ss) == 2`. -/
def guardLog (s0 : String) (args : List String) : Bool :=
  s0 == "log" && args.length == 1

/-- Disjunction of all the run-mode dispatch guards of `_process_line`
(interpreter.py lines 87-122); the `else` branch at line 124 is reached
exactly when all of them fail. -/
def dispatchGuard (s0 : String) (args : List String) : Bool :=
  guardPause s0 args || guardSp s0 args || guardPa s0 args || guardPr s0 args ||
  guardBg s0 args || guardSt s0 args || guardHm s0 args || guardSet s0 args ||
  guardWaitai s0 args || guardWaitdi s0 args || guardLog s0 args

/-- The typed instructions produced by the dispatch of `_process_line`
together with the argument conversions done inside the corresponding
`Interpreter._*` handler. -/
inductive Instruction
  | pause (seconds : ℤ)
  | setSpeed (value : ℤ)
  | setAbsPos (value : ℤ)
  | setRelPos (value : ℤ)
  | beginMotion
  | stopMotion
  | homeMotion
  | setOutput (name value : String)
  | waitAnalog (source operator : String) (value tolerance : ℚ) (timeout : Option ℚ)
  | waitDigital (source : String) (value : ℤ) (timeout : Option ℚ)
  | logVar (name : String)
  | emptyLine
deriving DecidableEq, Repr

/-- Outcome of parsing one script line: a typed instruction, the
`RuntimeError(f"Invalid code line: ...")` of the dispatch `else` branch
(interpreter.py line 124, carrying the comment-stripped line and the
token list), a `ValueError` raised by `int()`/`float()` inside a
handler, or a `ValueError` raised by `shlex.split` itself. -/
inductive LineOutcome
  | instr (i : Instruction)
  | invalidLine (line : String) (tokens : List String)
  | valueError (arg : String)
  | shlexError (msg : String)
deriving DecidableEq, Repr

/-- Whether an outcome is the "Invalid code line" parse error. -/
def isParseErrorOutcome : LineOutcome → Bool
  | .invalidLine _ _ => true
  | _ => false

/-- Run-mode dispatch of `_process_line` on the token list
(interpreter.py lines 81-127), including the numeric conversions the
handlers `_waitai` (lines 162-170) and `_waitdi` (lines 182-187) apply
to their arguments.  `codeLine` is the comment-stripped, space-stripped
line used in the error message.  Branches whose guard already pins the
argument shape still go through `pyIntOpt` to mirror the `int()` call. -/
def processTokens (codeLine : String) (ss : List String) : LineOutcome :=
  match ss with
  | [] => .instr .emptyLine
  | s0 :: args =>
    if guardPause s0 args then
      match pyIntOpt (String.mk s0.toList.tail) with
      | some n => .instr (.pause n)
      | none => .valueError (String.mk s0.toList.tail)
    else if guardSp s0 args then
      match args with
      | [a] =>
        match pyIntOpt a with
        | some n => .instr (.setSpeed n)
        | none => .valueError a
      | _ => .invalidLine codeLine ss
    else if guardPa s0 args then
      match args with
      | [a] =>
        match pyIntOpt a with
        | some n => .instr (.setAbsPos n)
        | none => .valueError a
      | _ => .invalidLine codeLine ss
    else if guardPr s0 args then
      match args with
      | [a] =>
        match pyIntOpt a with
        | some n => .instr (.setRelPos n)
        | none => .valueError a
      | _ => .invalidLine codeLine ss
    else if guardBg s0 args then .instr .beginMotion
    else if guardSt s0 args then .instr .stopMotion
    else if guardHm s0 args then .instr .homeMotion
    else if guardSet s0 args then
      match args with
      | [name, v] => .instr (.setOutput name v)
      | _ => .invalidLine codeLine ss
    else if guardWaitai s0 args then
      match args with
      | source :: operator :: valueStr :: rest =>
        match pyFloatOpt valueStr with
        | none => .valueError valueStr
        | some value =>
          match rest with
          | [] => .instr (.waitAnalog source operator value 0 none)
          | tolStr :: rest2 =>
            match pyFloatOpt tolStr with
            | none => .valueError tolStr
            | some tol =>
              match rest2 with
              | [] => .instr (.waitAnalog source operator value tol none)
              | tmoStr :: _ =>
                match pyFloatOpt tmoStr with
                | none => .valueError tmoStr
                | some tmo => .instr (.waitAnalog source operator value tol (some tmo))
      | _ => .invalidLine codeLine ss
    else if guardWaitdi s0 args then
      match args with
      | source :: valueStr :: rest =>
        match pyIntOpt valueStr with
        | none => .valueError valueStr
        | some value =>
          match rest with
          | [] => .instr (.waitDigital source value none)
          | tmoStr :: _ =>
            match pyFloatOpt tmoStr with
            | none => .valueError tmoStr
            | some tmo => .instr (.waitDigital source value (some tmo))
      | _ => .invalidLine codeLine ss
    else if guardLog s0 args then
      match args with
      | [name] => .instr (.logVar name)
      | _ => .invalidLine codeLine ss
    else .invalidLine codeLine ss

/-- Processing of one raw script line in run mode: tokenize (a `shlex`
exception propagates), then dispatch. -/
def processLine (line : String) : LineOutcome :=
  match tokenizeTokens line with
  | .error e => .shlexError e
  | .ok ss => processTokens (pyStripSpaces (stripComment line)) ss

/-! ## Plans and the interpreter motion state
(`interpreter.py` handlers and `support.py` motor helpers)

A bluesky plan is embedded as the list of messages the generator
yields. -/

/-- A value written to a device: a number or a string. -/
inductive PVal
  | q (x : ℚ)
  | s (v : String)
deriving DecidableEq, Repr

/-- The messages yielded by the plans of the interpreter: `bps.stop`,
`bps.sleep`, the custom `Msg("set_condition", ...)` and `Msg("wait", ...)`
pair of `wait_for_condition`, `bps.abs_set` / `bps.rel_set`,
`bps.checkpoint`, `bps.mv`, and `bps.null`.  Devices and signals are
identified by name. -/
inductive PMsg
  | stopM (motor : String)
  | sleep (t : ℚ)
  | setCondition (signal : String) (target : ℚ) (operator : String)
  | waitG (timeout : Option ℚ)
  | absSet (target : String) (value : PVal) (wait : Bool)
  | relSet (target : String) (value : PVal) (wait : Bool)
  | checkpoint
  | mv (target : String) (value : ℚ)
  | null
deriving DecidableEq, Repr

/-- Model of `wait_for_condition` (support.py lines 233-237): yields
`Msg("set_condition", signal=..., target=..., operator=..., group=...)`
followed by `Msg("wait", None, group=group, timeout=timeout)`.  The
`tolerance` parameter is accepted but not forwarded in the message
kwargs, so the `set_condition` handler of the run engine falls back to
`None` (clamped to 0 by `_ConditionStatus`). -/
def wait_for_condition (signal : String) (target : ℚ) (operator : String)
    (tolerance : ℚ) (timeout : Option ℚ) : List PMsg :=
  let _unused := tolerance
  [.setCondition signal target operator, .waitG timeout]

/-- Model of `motor_channel_enable` (support.py lines 259-260). -/
def motor_channel_enable (motor : String) : List PMsg :=
  [.absSet (motor ++ ".channel_enable") (.q 1) true]

/-- Model of `motor_stop` (support.py lines 239-244): `bps.stop`, a 0.2 s settle
sleep, then the line `wait_for_condition(motor.motor_done_move, 1, "==")`
— written WITHOUT `yield from`, so the generator object it returns is
created and discarded and none of its messages enter the plan — then a
second 0.2 s sleep. -/
def motor_stop (motor : String) : List PMsg :=
  let _discarded := wait_for_condition (motor ++ ".motor_done_move") 1 "==" 0 none
  [.stopM motor, .sleep (1/5), .sleep (1/5)]

/-- Model of `motor_move` (support.py lines 246-250): enable the channel, stop,
then `rel_set` or `abs_set` with `wait=False` depending on `is_rel`. -/
def motor_move (motor : String) (position : ℚ) (is_rel : Bool) : List PMsg :=
  motor_channel_enable motor ++ motor_stop motor ++
    [if is_rel then .relSet motor (.q position) false else .absSet motor (.q position) false]

/-- Model of `motor_home` (support.py lines 252-256). -/
def motor_home (motor : String) : List PMsg :=
  motor_channel_enable motor ++ motor_stop motor ++
    [.absSet (motor ++ ".home_reverse") (.q 1) true] ++
    wait_for_condition (motor ++ ".homing_monitor") 0 "==" 0 none

/-- Model of `_device_mapping` (interpreter.py lines 13-22): script display names
to device attribute paths. -/
def deviceMapping : List (String × String) :=
  [("Galil RBV", "galil_rbv"),
   ("Galil VAL", "galil_val"),
   ("ION Power", "ION_Pump_PS.Pwr_I"),
   ("ION Current", "ION_Pump_PS.I_I"),
   ("ION Voltage", "ION_Pump_PS.E_I"),
   ("ION Arc Rate", "ION_Pump_PS.Rate_Arc_I"),
   ("ION KWH Count", "ION_Pump_PS.Cnt_Target_KwHr_RB"),
   ("ION Output Enable", "ION_Pump_PS.Enbl_Out_Cmd")]

/-- The device namespace built by `Interpreter.__init__` from the
`devices` dict of `00-startup.py` line 108: attribute name to signal
handle (handles are identified by name).  `getattr` on
`SimpleNamespace(**devices)` resolves exactly these attribute names. -/
def stdDevices : List (String × String) :=
  [("galil", "galil"), ("galil_val", "galil_val"), ("galil_rbv", "galil_rbv"),
   ("ION_Pump_PS", "ION_Pump_PS")]

/-- Model of `getattr(self.devices, name)`: `none` in the association list models
the `AttributeError` Python raises for a missing attribute. -/
def getattrD (devices : List (String × String)) (name : String) : Except String String :=
  match devices.lookup name with
  | some s => .ok s
  | none => .error ("AttributeError: " ++ name)

/-- Model of `Interpreter._name_to_device` (interpreter.py lines 57-66): the
per-description device objects, resolved from `_device_mapping` by
`eval` of the (possibly dotted) path; a resolved sub-component is
identified here by its full dotted path. -/
def nameToDevice : List (String × String) :=
  deviceMapping.map (fun p => (p.1, p.2))

/-- The staged motion state of the interpreter (interpreter.py lines 51-53):
`galil_abs_rel` (0 = absolute, 1 = relative), `galil_pos`, and
`galil_speed` with its initial sentinel 1000000. -/
structure InterpState where
  galil_abs_rel : ℤ
  galil_pos : ℤ
  galil_speed : ℤ
deriving DecidableEq, Repr

/-- Initial motion state of a fresh `Interpreter`. -/
def initInterpState : InterpState :=
  { galil_abs_rel := 0, galil_pos := 0, galil_speed := 1000000 }

/-- Model of `Interpreter._galil_begin` (interpreter.py lines 143-146):
`bps.mv(galil.velocity, galil_speed / 1000000)`, `bps.checkpoint()`,
then `motor_move(galil, galil_pos / 1000000, is_rel=galil_abs_rel)` —
`is_rel` uses Python truthiness of the integer flag. -/
def galil_begin (st : InterpState) : List PMsg :=
  [.mv "galil.velocity" ((st.galil_speed : ℚ) / 1000000), .checkpoint] ++
    motor_move "galil" ((st.galil_pos : ℚ) / 1000000) (st.galil_abs_rel != 0)

/-- Execution of one typed instruction by the interpreter in run mode
(interpreter.py lines 87-203): staging opcodes mutate the motion state
and yield `bps.null()`; effectful opcodes yield their plan.  `_waitai`
resolves `getattr(self.devices, device_name)` with the full (possibly
dotted) mapped name; `_waitdi` does the same but then overwrites the
resolved signal with `self.devices.galil_signal` (interpreter.py
line 195) before waiting.  Errors carry the Python exception kind. -/
def execInstr (devices : List (String × String)) (st : InterpState) :
    Instruction → Except String (InterpState × List PMsg)
  | .pause n => .ok (st, [.sleep (n : ℚ)])
  | .setSpeed v => .ok ({ st with galil_speed := v }, [.null])
  | .setAbsPos v => .ok ({ st with galil_abs_rel := 0, galil_pos := v }, [.null])
  | .setRelPos v => .ok ({ st with galil_abs_rel := 1, galil_pos := v }, [.null])
  | .beginMotion => .ok (st, galil_begin st)
  | .stopMotion => .ok (st, motor_stop "galil")
  | .homeMotion => .ok (st, motor_home "galil")
  | .setOutput name v =>
    match nameToDevice.lookup name with
    | some sig => .ok (st, [.absSet sig (.s v) false])
    | none => .error ("KeyError: " ++ name)
  | .waitAnalog source operator value tol timeout =>
    match deviceMapping.lookup source with
    | some device_name =>
      match getattrD devices device_name with
      | .ok signal => .ok (st, wait_for_condition signal (value / 1000000) operator tol timeout)
      | .error e => .error e
    | none => .error ("Unrecognized device name: " ++ source)
  | .waitDigital source value timeout =>
    match deviceMapping.lookup source with
    | some device_name =>
      match getattrD devices device_name with
      | .ok _resolvedSignal =>
        match getattrD devices "galil_signal" with
        | .ok signal =>
          .ok (st, wait_for_condition signal ((value : ℚ) / 1000000) "==" 0 timeout)
        | .error e => .error e
      | .error e => .error e
    | none => .error ("Unrecognized device name: " ++ source)
  | .logVar _ => .ok (st, [.null])
  | .emptyLine => .ok (st, [.null])

/-- Execution of a list of instructions in order, threading the motion
state and concatenating the yielded messages; the first error aborts. -/
def runScript (devices : List (String × String)) (st : InterpState) :
    List Instruction → Except String (InterpState × List PMsg)
  | [] => .ok (st, [])
  | i :: rest =>
    match execInstr devices st i with
    | .error e => .error e
    | .ok (st2, msgs) =>
      match runScript devices st2 rest with
      | .error e => .error e
      | .ok (stF, msgsRest) => .ok (stF, msgs ++ msgsRest)

/-! ## Periodic logger (`interpreter.py`, `ts_periodic_logging_wrapper`) -/

/-- How the wrapped plan leaves the `with StartStopLogging():` block of
`_inner` (interpreter.py lines 242-244): running to completion, an
exception propagating out of an instruction, or closure of the
generator when the surrounding run is cancelled (`GeneratorExit`).
Python runs `__exit__` on all three paths. -/
inductive Outcome
  | completed
  | raised (msg : String)
  | closed
deriving DecidableEq, Repr

/-- State of the logging wrapper: whether the background task was
started (`asyncio.ensure_future(logging_coro())` in `__enter__`) and
whether the stop event is set (`stop.set()` in `__exit__`). -/
structure LoggerCtl where
  started : Bool
  stopSet : Bool
deriving DecidableEq, Repr

/-- Model of `StartStopLogging.__enter__` (interpreter.py lines 234-236). -/
def startStopEnter (c : LoggerCtl) : LoggerCtl :=
  { c with started := true }

/-- Model of `StartStopLogging.__exit__` (interpreter.py lines 238-240): runs
`stop.set()` whatever caused the block to exit (`__exit__(self, *args)`
ignores the exception information). -/
def startStopExit (c : LoggerCtl) : LoggerCtl :=
  { c with stopSet := true }

/-- Model of `_inner` in `ts_periodic_logging_wrapper` (interpreter.py lines
242-246): the wrapped plan runs inside the `with` block, and 
`__exit__` of the context manager runs on every way out of the block —
normal return, exception, or generator close — which is exactly
the `with` guarantee of Python.  `body` is the wrapped plan: it transforms
the state and reports how it exited. -/
def runWithLogging (body : LoggerCtl → Outcome × LoggerCtl) (c : LoggerCtl) :
    Outcome × LoggerCtl :=
  let c1 := startStopEnter c
  let r := body c1
  (r.1, startStopExit r.2)

/-- Guard of the `while not stop.is_set():` loop of `logging_coro`
(interpreter.py line 211): the coroutine runs another tick only while
the stop event is clear, so it terminates at the first check after
`stop.set()`. -/
def loggingLoopContinues (stopSet : Bool) : Bool :=
  !stopSet

/-- A value read from a logged signal (`_.value` at interpreter.py
line 225): a float, an int, or a string. -/
inductive LogVal
  | f (x : ℚ)
  | i (n : ℤ)
  | s (v : String)
deriving DecidableEq, Repr

/-- Round-half-even of a rational to an integer, the rounding that Python
fixed-point formatting applies to the decimal expansion. -/
def roundHalfEven (q : ℚ) : ℤ :=
  let f := q.floor
  let frac := q - (f : ℚ)
  if frac < 1/2 then f
  else if frac > 1/2 then f + 1
  else if f % 2 = 0 then f else f + 1

/-- A natural number printed zero-padded to 6 digits. -/
def natPad6 (n : ℕ) : String :=
  let s := toString n
  String.mk (List.replicate (6 - s.length) '0') ++ s

/-- Python `f"{x:.6f}"` on the exact rational value `x`: sign, integer
part, and exactly 6 fractional digits (the decimal-expansion rounding of
the underlying binary float is modelled as exact rational rounding). -/
def formatFixed6 (x : ℚ) : String :=
  let a := roundHalfEven (|x| * 1000000)
  (if x < 0 then "-" else "") ++ toString (a / 1000000) ++ "." ++ natPad6 (a % 1000000).toNat

/-- The per-value formatting of a data row (interpreter.py line 226):
`f"{_:.6f}"` for floats, `f"{_}"` otherwise. -/
def formatVal : LogVal → String
  | .f x => formatFixed6 x
  | .i n => toString n
  | .s v => v

/-- Python `sep.join(xs)`. -/
def pyJoin (sep : String) : List String → String
  | [] => ""
  | x :: rest => rest.foldl (fun acc y => acc ++ sep ++ y) x

/-- Comma-join written by direct recursion (used to restate the row
layout; proved equal to `pyJoin ","`). -/
def joinComma : List String → String
  | [] => ""
  | [x] => x
  | x :: y :: rest => x ++ "," ++ joinComma (y :: rest)

/-- The header row `f"Timestamp,{s}"` with `s` the comma-joined quoted
signal names (interpreter.py lines 222-223). -/
def headerLine (signals : List (String × LogVal)) : String :=
  "Timestamp," ++ pyJoin "," (signals.map (fun p => "\"" ++ p.1 ++ "\""))

/-- The data row `f"{timestamp},{s}"` with `s` the comma-joined
formatted signal values in insertion order (interpreter.py lines
225-228). -/
def dataRow (signals : List (String × LogVal)) (timestamp : String) : String :=
  timestamp ++ "," ++ pyJoin "," (signals.map (fun p => formatVal p.2))

/-- One tick of `logging_coro` (interpreter.py lines 211-230).  The log
file is the list of its lines; `none` means the file does not exist.
`is_new_file` is decided before opening; opening in append mode creates
the file; the header is written first exactly when the file was new, and
then exactly one data row is appended. -/
def tick (signals : List (String × LogVal)) (timestamp : String)
    (file : Option (List String)) : List String :=
  let is_new_file := file.isNone
  let lines := file.getD []
  let withHeader := if is_new_file then lines ++ [headerLine signals] else lines
  withHeader ++ [dataRow signals timestamp]

/-! ## Theorems -/

/-- Helper: once the callback has been unsubscribed, no later event —
update or timeout — changes the watcher (the callback is never invoked
again). -/
theorem runEvents_stable (w : Watcher) (events : List WEvent)
    (h : w.state.cbSubscribed = false) : runEvents w events = .ok w := by
  induction events with
  | nil => rfl
  | cons e es ih =>
    cases e with
    | update v => simp [runEvents, stepEv, cbUpdate, h, ih]
    | timeout => simpa [runEvents, stepEv, waitTimeout] using ih

/-- C2 counterexample: `"><"` is not a supported operator, yet
`_ConditionStatus.__init__` raises nothing and completes with the
callback subscribed — the invalid-operator error is NOT raised before
the subscription is made. -/
theorem c2_counterexample :
    ("><" ∉ validOps) ∧
    conditionStatusInit "><" 5 none =
      .ok { operator := "><", target := 5, tolerance := 0,
            state := { cbSubscribed := true, finished := false } } := by
  constructor
  · decide
  · rfl

/-- C2 (amended): for a comparison operator outside the supported set,
`__init__` completes normally with the callback subscribed, and the
invalid-operator error is instead raised by the callback when it first
runs on a signal update — after the subscription has been made, and
without removing it. -/
theorem c2_amended (op : String) (target tol v : ℚ) (h : op ∉ validOps) :
    conditionStatusInit op target none =
      .ok { operator := op, target := target, tolerance := 0,
            state := { cbSubscribed := true, finished := false } }
    ∧ cbUpdate { operator := op, target := target, tolerance := tol,
                 state := { cbSubscribed := true, finished := false } } v =
        .error ("Invalid operator: " ++ op) := by
  simp only [validOps, List.mem_cons, List.mem_singleton, not_or] at h
  obtain ⟨h1, h2, h3, h4, h5, h6, h7⟩ := h
  constructor
  · simp [conditionStatusInit, clampTolerance]
  · simp [cbUpdate, predEval, h1, h2, h3, h4, h5, h6, h7]

/-- C2 witness: the amended statement evaluated at the unsupported
operator `"><"`. -/
theorem c2_witness :
    ("><" ∉ validOps)
    ∧ (conditionStatusInit "><" 7 none =
        .ok { operator := "><", target := 7, tolerance := 0,
              state := { cbSubscribed := true, finished := false } }
       ∧ cbUpdate { operator := "><", target := 7, tolerance := 0,
                    state := { cbSubscribed := true, finished := false } } 3 =
          .error ("Invalid operator: " ++ "><")) :=
  ⟨by decide, c2_amended "><" 7 0 3 (by decide)⟩

unseal Rat.mul Rat.inv Rat.add Rat.sub Rat.ofScientific in
/-- C3 counterexample: with target 10 and tolerance 0.5, the boundary
value 9.5 = target - tolerance DOES satisfy the `!=` operator in the
code (the callback uses `value <= target - tolerance`), while the claim
says a value equal to target - tolerance does not satisfy `!=`. -/
theorem c3_counterexample :
    predEval "!=" 10 (1/2) (19/2) = .ok true
    ∧ ¬((19/2 : ℚ) < 10 - 1/2 ∨ (19/2 : ℚ) > 10 + 1/2) := by
  constructor
  · decide
  · decide

/-- C3 (amended): `==`/`=` hold exactly on the closed band
target - tolerance ≤ value ≤ target + tolerance, and `!=` holds exactly
when value ≤ target - tolerance or value ≥ target + tolerance — the
band boundaries satisfy `!=` as well (so with zero tolerance `!=` is
satisfied by every value). -/
theorem c3_amended (target tol value : ℚ) (h : 0 ≤ tol) :
    (predEval "==" target tol value = .ok true ↔
      target - tol ≤ value ∧ value ≤ target + tol)
    ∧ (predEval "=" target tol value = .ok true ↔
      target - tol ≤ value ∧ value ≤ target + tol)
    ∧ (predEval "!=" target tol value = .ok true ↔
      value ≤ target - tol ∨ value ≥ target + tol) := by
  have e1 : predEval "==" target tol value =
      .ok (decide (target - tol ≤ value ∧ value ≤ target + tol)) := rfl
  have e2 : predEval "=" target tol value =
      .ok (decide (target - tol ≤ value ∧ value ≤ target + tol)) := rfl
  have e3 : predEval "!=" target tol value =
      .ok (decide (value ≤ target - tol ∨ value ≥ target + tol)) := rfl
  refine ⟨?_, ?_, ?_⟩ <;> simp [e1, e2, e3]

unseal Rat.mul Rat.inv Rat.add Rat.sub Rat.ofScientific in
/-- C3 witness: the amended statement at the worked example of the spec,
target 10, tolerance 0.5, value 10.4. -/
theorem c3_witness :
    (0 : ℚ) ≤ 1/2
    ∧ ((predEval "==" 10 (1/2) (52/5) = .ok true ↔
        (10 : ℚ) - 1/2 ≤ 52/5 ∧ (52/5 : ℚ) ≤ 10 + 1/2)
      ∧ (predEval "=" 10 (1/2) (52/5) = .ok true ↔
        (10 : ℚ) - 1/2 ≤ 52/5 ∧ (52/5 : ℚ) ≤ 10 + 1/2)
      ∧ (predEval "!=" 10 (1/2) (52/5) = .ok true ↔
        (52/5 : ℚ) ≤ 10 - 1/2 ∨ (52/5 : ℚ) ≥ 10 + 1/2)) :=
  ⟨by decide, c3_amended 10 (1/2) (52/5) (by decide)⟩

unseal Rat.mul Rat.inv Rat.add Rat.sub Rat.ofScientific in
/-- C4 counterexample: a pending request (operator `>=`, target 5) that
experiences a timeout is left with its callback still subscribed, and a
subsequent signal update still invokes the callback — which can even
resolve the request Satisfied after the timeout.  This refutes "after
either resolution the watcher has unsubscribed" and "a request that
times out leaves no active subscription". -/
theorem c4_counterexample :
    runEvents { operator := ">=", target := 5, tolerance := 0,
                state := { cbSubscribed := true, finished := false } } [.timeout] =
      .ok { operator := ">=", target := 5, tolerance := 0,
            state := { cbSubscribed := true, finished := false } }
    ∧ runEvents { operator := ">=", target := 5, tolerance := 0,
                  state := { cbSubscribed := true, finished := false } }
        [.timeout, .update 7] =
      .ok { operator := ">=", target := 5, tolerance := 0,
            state := { cbSubscribed := false, finished := true } } := by
  constructor
  · decide
  · decide

/-- C4 (amended): a non-satisfying update leaves a pending request
pending; the first satisfying update unsubscribes the callback and
finishes the request in the same step (Satisfied, exactly once), after
which no further event has any effect; but a timeout never alters the
watcher, so a request that times out while pending keeps its active
subscription. -/
theorem c4_amended (op : String) (target tol v v2 : ℚ) (events : List WEvent)
    (hsat : predEval op target tol v = .ok true)
    (hnot : predEval op target tol v2 = .ok false) :
    cbUpdate { operator := op, target := target, tolerance := tol,
               state := { cbSubscribed := true, finished := false } } v2 =
      .ok { operator := op, target := target, tolerance := tol,
            state := { cbSubscribed := true, finished := false } }
    ∧ cbUpdate { operator := op, target := target, tolerance := tol,
                 state := { cbSubscribed := true, finished := false } } v =
      .ok { operator := op, target := target, tolerance := tol,
            state := { cbSubscribed := false, finished := true } }
    ∧ runEvents { operator := op, target := target, tolerance := tol,
                  state := { cbSubscribed := false, finished := true } } events =
      .ok { operator := op, target := target, tolerance := tol,
            state := { cbSubscribed := false, finished := true } }
    ∧ waitTimeout { operator := op, target := target, tolerance := tol,
                    state := { cbSubscribed := true, finished := false } } =
      { operator := op, target := target, tolerance := tol,
        state := { cbSubscribed := true, finished := false } } := by
  refine ⟨?_, ?_, ?_, rfl⟩
  · simp [cbUpdate, hnot]
  · simp [cbUpdate, hsat]
  · exact runEvents_stable _ events rfl

unseal Rat.mul Rat.inv Rat.add Rat.sub Rat.ofScientific in
/-- C4 witness: the amended statement at operator `>=`, target 6,
satisfying value 7, non-satisfying value 3, and a post-resolution event
sequence containing both an update and a timeout. -/
theorem c4_witness :
    (predEval ">=" 6 0 7 = .ok true)
    ∧ (predEval ">=" 6 0 3 = .ok false)
    ∧ (cbUpdate { operator := ">=", target := 6, tolerance := 0,
                  state := { cbSubscribed := true, finished := false } } 3 =
        .ok { operator := ">=", target := 6, tolerance := 0,
              state := { cbSubscribed := true, finished := false } }
      ∧ cbUpdate { operator := ">=", target := 6, tolerance := 0,
                   state := { cbSubscribed := true, finished := false } } 7 =
        .ok { operator := ">=", target := 6, tolerance := 0,
              state := { cbSubscribed := false, finished := true } }
      ∧ runEvents { operator := ">=", target := 6, tolerance := 0,
                    state := { cbSubscribed := false, finished := true } }
          [.update 9, .timeout] =
        .ok { operator := ">=", target := 6, tolerance := 0,
              state := { cbSubscribed := false, finished := true } }
      ∧ waitTimeout { operator := ">=", target := 6, tolerance := 0,
                      state := { cbSubscribed := true, finished := false } } =
        { operator := ">=", target := 6, tolerance := 0,
          state := { cbSubscribed := true, finished := false } }) :=
  ⟨by decide, by decide, c4_amended ">=" 6 0 7 3 [.update 9, .timeout] (by decide) (by decide)⟩

unseal Rat.mul Rat.inv Rat.add Rat.sub Rat.ofScientific in
/-- C1: the `waitdi` line parses and resolves its source through the
registry (to `galil_rbv`, which exists among the devices), but the
executed condition wait is NOT performed on that resolved handle:
`_waitdi` overwrites it with `self.devices.galil_signal`
(interpreter.py line 195).  With the device set built by
`00-startup.py` that attribute does not exist, so the instruction
raises `AttributeError`; if an attribute of that name did exist, the
wait would target it — with operator `==` and zero tolerance as
claimed — instead of the signal named by the source. -/
theorem c1_waitdi_wrong_signal :
    processLine "waitdi, \"Galil RBV\", 1" = .instr (.waitDigital "Galil RBV" 1 none)
    ∧ deviceMapping.lookup "Galil RBV" = some "galil_rbv"
    ∧ getattrD stdDevices "galil_rbv" = .ok "galil_rbv"
    ∧ execInstr stdDevices initInterpState (.waitDigital "Galil RBV" 1 none) =
        .error ("AttributeError: " ++ "galil_signal")
    ∧ execInstr (stdDevices ++ [("galil_signal", "galil_signal")]) initInterpState
        (.waitDigital "Galil RBV" 1 none) =
        .ok (initInterpState, [.setCondition "galil_signal" (1/1000000) "==", .waitG none])
    ∧ ("galil_signal" : String) ≠ "galil_rbv" := by
  refine ⟨by decide, by decide, by decide, by decide, by decide, by decide⟩

unseal Rat.mul Rat.inv Rat.add Rat.sub Rat.ofScientific in
/-- C5: `motor_stop` yields only the stop request and the two 0.2 s
settle sleeps; the done-moving confirmation
`wait_for_condition(motor.motor_done_move, 1, "==")` at support.py
line 242 is called without `yield from`, so no confirmation wait of any
kind (best-effort or otherwise) enters the plan — the two messages that
call would have yielded are absent. -/
theorem c5_stop_confirmation_never_runs :
    motor_stop "galil" = [.stopM "galil", .sleep (1/5), .sleep (1/5)]
    ∧ PMsg.setCondition "galil.motor_done_move" 1 "==" ∉ motor_stop "galil"
    ∧ PMsg.waitG none ∉ motor_stop "galil"
    ∧ wait_for_condition "galil.motor_done_move" 1 "==" 0 none =
        [.setCondition "galil.motor_done_move" 1 "==", .waitG none] := by
  refine ⟨by decide, by decide, by decide, by decide⟩

unseal Rat.mul Rat.inv Rat.add Rat.sub Rat.ofScientific in
/-- C8: executing `sp 500000`, `pa -200000`, `bg` sets the velocity
channel to 0.5 and issues an absolute (`abs_set`, not `rel_set`) move to
position -0.2; and in general `_galil_begin` divides both the staged
speed and the staged position by 1000000 before applying them. -/
theorem c8_unit_scaling :
    (runScript stdDevices initInterpState
        [.setSpeed 500000, .setAbsPos (-200000), .beginMotion] =
      .ok ({ galil_abs_rel := 0, galil_pos := -200000, galil_speed := 500000 },
        [.null, .null,
         .mv "galil.velocity" (1/2), .checkpoint,
         .absSet "galil.channel_enable" (.q 1) true,
         .stopM "galil", .sleep (1/5), .sleep (1/5),
         .absSet "galil" (.q (-(1/5))) false]))
    ∧ ∀ st : InterpState, galil_begin st =
        [.mv "galil.velocity" ((st.galil_speed : ℚ) / 1000000), .checkpoint,
         .absSet "galil.channel_enable" (.q 1) true,
         .stopM "galil", .sleep (1/5), .sleep (1/5),
         if st.galil_abs_rel != 0 then
           .relSet "galil" (.q ((st.galil_pos : ℚ) / 1000000)) false
         else
           .absSet "galil" (.q ((st.galil_pos : ℚ) / 1000000)) false] := by
  constructor
  · decide
  · intro st
    simp [galil_begin, motor_move, motor_channel_enable, motor_stop]

unseal Rat.mul Rat.inv Rat.add Rat.sub Rat.ofScientific in
/-- C6 counterexample: `waitdi, x, abc` has a malformed numeric literal
where the grammar requires an integer, yet processing the line raises
the `ValueError` of `int("abc")` inside the handler — not the "Invalid
code line" parse error (and so not an error carrying the offending
line). -/
theorem c6_counterexample :
    processLine "waitdi, x, abc" = .valueError "abc"
    ∧ isParseErrorOutcome (processLine "waitdi, x, abc") = false := by
  constructor
  · decide
  · decide

unseal Rat.mul Rat.inv Rat.add Rat.sub Rat.ofScientific in
/-- C6 (amended): every tokenized line whose token list fails all the
dispatch guards (unknown first token or wrong argument count/shape)
produces the "Invalid code line" error carrying the comment-stripped
line and the token list; but a malformed numeric argument that passes a
guard — such as `--5` passing the `pa` sign pattern `^-*\d+$` — raises
a `ValueError` from the conversion instead, and an unbalanced quote
raises the `shlex` `ValueError` before dispatch. -/
theorem c6_amended (line : String) (ss : List String)
    (htok : tokenizeTokens line = .ok ss) (hne : ss ≠ [])
    (hg : dispatchGuard (ss.headD "") ss.tail = false) :
    processLine line = .invalidLine (pyStripSpaces (stripComment line)) ss
    ∧ processLine "pa, --5" = .valueError "--5"
    ∧ processLine "sp \"5" = .shlexError "No closing quotation" := by
  refine ⟨?_, by decide, by decide⟩
  cases ss with
  | nil => exact absurd rfl hne
  | cons s0 args =>
    simp only [List.headD_cons, List.tail_cons, dispatchGuard,
      Bool.or_eq_false_iff] at hg
    obtain ⟨⟨⟨⟨⟨⟨⟨⟨⟨⟨g1, g2⟩, g3⟩, g4⟩, g5⟩, g6⟩, g7⟩, g8⟩, g9⟩, g10⟩, g11⟩ := hg
    simp [processLine, htok, processTokens, g1, g2, g3, g4, g5, g6, g7, g8, g9, g10, g11]

unseal Rat.mul Rat.inv Rat.add Rat.sub Rat.ofScientific in
/-- C6 witness: the amended statement at the unknown-opcode line
`fly 3`. -/
theorem c6_witness :
    (tokenizeTokens "fly 3" = .ok ["fly", "3"])
    ∧ (dispatchGuard (["fly", "3"].headD "") (["fly", "3"].tail) = false)
    ∧ processLine "fly 3" =
        .invalidLine (pyStripSpaces (stripComment "fly 3")) ["fly", "3"] :=
  ⟨by decide, by decide,
   (c6_amended "fly 3" ["fly", "3"] (by decide) (by decide) (by decide)).1⟩

/-- Helper: `takeWhile` with a predicate failing on `#` and holding on
every character of `pre` keeps exactly the prefix before the first `#`. -/
theorem takeWhileHash (p : Char → Bool) (pre post : List Char) (hp : p '#' = false)
    (h : ∀ c ∈ pre, p c = true) : (pre ++ '#' :: post).takeWhile p = pre := by
  induction pre with
  | nil => simp [List.takeWhile_cons, hp]
  | cons c cs ih =>
    have hc : p c = true := h c (List.mem_cons_self c cs)
    have hcs : ∀ d ∈ cs, p d = true := fun d hd => h d (List.mem_cons_of_mem c hd)
    simp [List.takeWhile_cons, hc, ih hcs]

/-- Helper: inside a double-quoted region, characters other than `"`
and `\` are appended verbatim to the current token until the closing
quote. -/
theorem shlexAux_double_safe (t : List Char) (rest cur : List Char) (acc : List String)
    (h : ∀ c ∈ t, c ≠ '"' ∧ c ≠ '\\') :
    shlexAux .doubleQ (some cur) acc (t ++ '"' :: rest) =
      shlexAux .noneQ (some (cur ++ t)) acc rest := by
  induction t generalizing cur with
  | nil =>
    rw [shlexAux.eq_def]
    simp
  | cons c t2 ih =>
    have hc := h c (List.mem_cons_self c t2)
    have ht2 : ∀ d ∈ t2, d ≠ '"' ∧ d ≠ '\\' := fun d hd => h d (List.mem_cons_of_mem c hd)
    have step : shlexAux .doubleQ (some cur) acc ((c :: t2) ++ '"' :: rest) =
        shlexAux .doubleQ (some (cur ++ [c])) acc (t2 ++ '"' :: rest) := by
      rw [shlexAux.eq_def]
      simp [hc.1, hc.2]
    rw [step, ih (cur ++ [c]) ht2]
    simp

/-- C7 counterexample: in `log, "a#b"` the `#` sits inside a quoted
substring, yet comment stripping removes it and everything after it
(the regex `#.*$` is applied before any quote handling), leaving an
unterminated quote that makes tokenization raise — instead of keeping
the `#` and producing the token `a#b`. -/
theorem c7_counterexample :
    stripComment "log, \"a#b\"" = "log, \"a"
    ∧ tokenizeTokens "log, \"a#b\"" = .error "No closing quotation" := by
  constructor
  · decide
  · decide

/-- C7 (amended): the parser strips everything from the first `#` to
the end of the line even when that `#` lies inside a quoted substring;
quoted substrings containing spaces (and no `#`, backslash or comma) do
survive tokenization as a single token. -/
theorem c7_amended (pre post t : List Char)
    (hpre : '#' ∉ pre) (ht : ∀ c ∈ t, c ≠ '"' ∧ c ≠ '\\') :
    stripComment (String.mk (pre ++ '#' :: post)) = String.mk pre
    ∧ shlexSplit (String.mk ('"' :: (t ++ ['"']))) = .ok [String.mk t]
    ∧ tokenizeTokens "log, \"Galil RBV\"" = .ok ["log", "Galil RBV"] := by
  refine ⟨?_, ?_, by decide⟩
  · show String.mk ((pre ++ '#' :: post).takeWhile (fun c => decide (c ≠ '#'))) = String.mk pre
    rw [takeWhileHash (fun c => decide (c ≠ '#')) pre post (by decide)
      (fun c hc => decide_eq_true (by rintro rfl; exact hpre hc))]
  · have step1 : shlexSplit (String.mk ('"' :: (t ++ ['"']))) =
        shlexAux .doubleQ (some []) [] (t ++ ['"']) := by
      show shlexAux .noneQ none [] ('"' :: (t ++ ['"'])) = _
      rw [shlexAux.eq_def]
      simp [squote]
    rw [step1]
    rw [show t ++ ['"'] = t ++ '"' :: [] from rfl]
    rw [shlexAux_double_safe t [] [] [] ht]
    rfl

/-- C7 witness: the amended statement at the comment-stripping split
`log` / `ignored` and the quoted token `Galil RBV`. -/
theorem c7_witness :
    stripComment (String.mk ("log, ".toList ++ '#' :: " trailing".toList)) =
      String.mk "log, ".toList
    ∧ shlexSplit (String.mk ('"' :: ("Galil RBV".toList ++ ['"']))) =
        .ok [String.mk "Galil RBV".toList]
    ∧ tokenizeTokens "log, \"Galil RBV\"" = .ok ["log", "Galil RBV"] :=
  c7_amended "log, ".toList " trailing".toList "Galil RBV".toList (by decide) (by decide)

/-- C9: whatever the wrapped plan does — complete, raise, or be closed
by cancellation — leaving the `with StartStopLogging():` block runs
`__exit__`, which sets the stop event of the logger; the
`while not stop.is_set()` guard of the logging coroutine is then false, so the background task
terminates at its next check.  The outcome of the body itself is passed
through unchanged. -/
theorem c9_logger_always_stopped (body : LoggerCtl → Outcome × LoggerCtl) (c : LoggerCtl) :
    (runWithLogging body c).2.stopSet = true
    ∧ loggingLoopContinues (runWithLogging body c).2.stopSet = false
    ∧ (runWithLogging body c).1 = (body (startStopEnter c)).1 :=
  ⟨rfl, rfl, rfl⟩

/-- Helper: the Python `sep.join` fold agrees with direct comma-joining
recursion. -/
theorem pyJoinFold (rest : List String) (x : String) :
    rest.foldl (fun acc y => acc ++ "," ++ y) x = joinComma (x :: rest) := by
  induction rest generalizing x with
  | nil => rfl
  | cons y rs ih =>
    have hy := ih (x ++ "," ++ y)
    rw [List.foldl_cons, hy]
    cases rs with
    | nil => simp [joinComma]
    | cons z zs => simp [joinComma, String.append_assoc]

/-- Helper: `pyJoin ","` equals `joinComma`. -/
theorem pyJoin_eq_joinComma (xs : List String) : pyJoin "," xs = joinComma xs := by
  cases xs with
  | nil => rfl
  | cons x rest => exact pyJoinFold rest x

unseal Rat.mul Rat.inv Rat.add Rat.sub Rat.ofScientific in
/-- C10: each logger tick appends exactly one data row — the timestamp
followed by one value per signal in insertion order, floats formatted
to 6 decimal places and other values in their natural string form — and
a header row of quoted signal names prefixed by `Timestamp` is written
immediately before it exactly when the file did not exist at the start
of the tick. -/
theorem c10_logger_tick (signals : List (String × LogVal)) (ts : String) :
    (∀ old : List String, tick signals ts (some old) = old ++ [dataRow signals ts])
    ∧ tick signals ts none = [headerLine signals, dataRow signals ts]
    ∧ headerLine signals =
        "Timestamp," ++ joinComma (signals.map (fun p => "\"" ++ p.1 ++ "\""))
    ∧ dataRow signals ts =
        ts ++ "," ++ joinComma (signals.map (fun p => formatVal p.2))
    ∧ formatVal (.f (1/2)) = "0.500000"
    ∧ formatVal (.f (52/5)) = "10.400000"
    ∧ formatVal (.i 7) = "7"
    ∧ formatVal (.s "on") = "on" := by
  refine ⟨fun old => ?_, ?_, ?_, ?_, by decide, by decide, by decide, by decide⟩
  · simp [tick]
  · simp [tick]
  · simp [headerLine, pyJoin_eq_joinComma]
  · simp [dataRow, pyJoin_eq_joinComma]

end Megatron
